import Mathlib

/-!
Shallow embedding of the pgxpool connection pool (package pgxpool, file
src/unnamed/part_000) and of convertDriverValuers (package pgx, file
src/messages.go), with theorems checking the natural-language specification
against the code.

Durations are modelled in nanoseconds as mathematical integers (Go's
time.Duration is an int64 count of nanoseconds); connection counts are
integers (the Go fields are int32).  External collaborators (the puddle
resource-pool primitive, the transport-level pgx.ParseConfig, the Go standard
library) are modelled from the spec or from the exact fragment the code uses,
and each such definition says so in its doc comment.
-/

namespace PgxPool

/-- Nanoseconds in one hour: the default pool_max_conn_lifetime. -/
def hourNs : Int := 3600000000000

/-- Nanoseconds in thirty minutes: the default pool_max_conn_idle_time. -/
def thirtyMinNs : Int := 1800000000000

/-- Nanoseconds in one minute: the default pool_health_check_period, and the
timeout put on each background replenishment task. -/
def minuteNs : Int := 60000000000

/-- Accumulate decimal digits left to right; fails on any non-digit character.
Models the digit loop of Go strconv.ParseInt in base 10. -/
def parseDigits : List Char → Nat → Option Nat
  | [], acc => some acc
  | c :: cs, acc =>
    if c.isDigit then parseDigits cs (acc * 10 + (c.toNat - 48)) else none

/-- Modelled from Go strconv.ParseInt(s, 10, 32): an optional sign followed by
one or more decimal digits, with the value required to fit in int32; anything
else is an error (none). -/
def parseGoInt32 (s : String) : Option Int :=
  let signed : Bool × List Char :=
    match s.data with
    | '-' :: rest => (true, rest)
    | '+' :: rest => (false, rest)
    | cs => (false, cs)
  match signed.2 with
  | [] => none
  | ds =>
    match parseDigits ds 0 with
    | none => none
    | some n =>
      let v : Int := if signed.1 then -(n : Int) else (n : Int)
      if -2147483648 ≤ v ∧ v ≤ 2147483647 then some v else none

/-- Split a character list into its leading run of decimal digits and the
rest. -/
def splitDigits : List Char → List Char × List Char
  | [] => ([], [])
  | c :: cs =>
    if c.isDigit then
      let p := splitDigits cs
      (c :: p.1, p.2)
    else ([], c :: cs)

/-- Nanoseconds per duration unit, as in Go time.ParseDuration. -/
def durationUnitNs : String → Option Int
  | "ns" => some 1
  | "us" => some 1000
  | "ms" => some 1000000
  | "s" => some 1000000000
  | "m" => some 60000000000
  | "h" => some 3600000000000
  | _ => none

/-- Modelled from Go time.ParseDuration, on the fragment relevant to the pool
configuration: an optional sign, an integer, and one unit (ns, us, ms, s, m,
h).  Like ParseDuration, it accepts negative durations. -/
def parseGoDuration (s : String) : Option Int :=
  let signed : Bool × List Char :=
    match s.data with
    | '-' :: rest => (true, rest)
    | '+' :: rest => (false, rest)
    | cs => (false, cs)
  let p := splitDigits signed.2
  match p.1 with
  | [] => none
  | ds =>
    match parseDigits ds 0, durationUnitNs (String.mk p.2) with
    | some n, some u =>
      let v : Int := (n : Int) * u
      some (if signed.1 then -v else v)
    | _, _ => none

/-- Runtime parameters of the parsed connection config: the key-value map that
pgx.ParseConfig leaves in ConnConfig.Config.RuntimeParams, modelled as an
association list with at most one entry per key. -/
abbrev Params := List (String × String)

/-- Map lookup on the runtime parameters (Go `s, ok := m[k]`). -/
def lookupParam (k : String) : Params → Option String
  | [] => none
  | (k', v) :: rest => if k' = k then some v else lookupParam k rest

/-- Go `delete(m, k)`: removes the binding for k. -/
def deleteParam (k : String) (ps : Params) : Params :=
  ps.filter (fun kv => kv.1 != k)

/-- The Config record produced by ParseConfig (src/unnamed/part_000 lines
86-127), restricted to the fields the claims concern.  The hooks are carried
separately by the models that need them. -/
structure Config where
  runtimeParams : Params
  maxConns : Int := 0
  minConns : Int := 0
  maxConnLifetime : Int := 0
  maxConnIdleTime : Int := 0
  healthCheckPeriod : Int := 0
  lazyConnect : Bool := false
  createdByParseConfig : Bool := false
deriving Repr, DecidableEq

/-- One recognised key block of ParseConfig (the five blocks at lines 262-321
share this shape): a present key is deleted from the map and its value parsed,
with a parse failure reported under errMsg; an absent key yields none. -/
def takeKey (key : String) (parse : String → Option Int) (errMsg : String)
    (params : Params) : Except String (Params × Option Int) :=
  match lookupParam key params with
  | some s =>
    match parse s with
    | none => .error errMsg
    | some n => .ok (deleteParam key params, some n)
  | none => .ok (params, none)

/-- The pool_max_conns value check and default (lines 268-277): a parsed value
below 1 is rejected; an absent key defaults to max(4, numCPU). -/
def checkMaxConns (numCPU : Nat) : Option Int → Except String Int
  | some n =>
    if n < 1 then .error ("pool_max_conns too small: " ++ toString n)
    else .ok n
  | none => .ok (if (numCPU : Int) > 4 then (numCPU : Int) else 4)

/-- ParseConfig (src/unnamed/part_000 lines 251-324).  The transport-level
pgx.ParseConfig is an external collaborator; its output is modelled by the
runtime-params map it yields, taken here as the input, and numCPU models
runtime.NumCPU().  Note the code checks no bounds on pool_min_conns and no
positivity of the three durations. -/
def ParseConfig (numCPU : Nat) (params : Params) : Except String Config :=
  match takeKey "pool_max_conns" parseGoInt32 "cannot parse pool_max_conns" params with
  | .error e => .error e
  | .ok (params1, maxOpt) =>
    match checkMaxConns numCPU maxOpt with
    | .error e => .error e
    | .ok maxConns =>
      match takeKey "pool_min_conns" parseGoInt32 "cannot parse pool_min_conns" params1 with
      | .error e => .error e
      | .ok (params2, minOpt) =>
        match takeKey "pool_max_conn_lifetime" parseGoDuration "invalid pool_max_conn_lifetime" params2 with
        | .error e => .error e
        | .ok (params3, lifeOpt) =>
          match takeKey "pool_max_conn_idle_time" parseGoDuration "invalid pool_max_conn_idle_time" params3 with
          | .error e => .error e
          | .ok (params4, idleOpt) =>
            match takeKey "pool_health_check_period" parseGoDuration "invalid pool_health_check_period" params4 with
            | .error e => .error e
            | .ok (params5, healthOpt) =>
              .ok { runtimeParams := params5
                    maxConns := maxConns
                    minConns := minOpt.getD 0
                    maxConnLifetime := lifeOpt.getD hourNs
                    maxConnIdleTime := idleOpt.getD thirtyMinNs
                    healthCheckPeriod := healthOpt.getD minuteNs
                    createdByParseConfig := true }

/-- The five pool keys ParseConfig recognises and consumes. -/
def poolKeys : List String :=
  ["pool_max_conns", "pool_min_conns", "pool_max_conn_lifetime",
   "pool_max_conn_idle_time", "pool_health_check_period"]

/-- The Pool record built by ConnectConfig (src/unnamed/part_000 lines
161-172), restricted to the copied configuration fields the claims concern. -/
structure PoolRec where
  minConns : Int
  maxConnLifetime : Int
  maxConnIdleTime : Int
  healthCheckPeriod : Int
deriving Repr, DecidableEq

/-- Possible results of ConnectConfig: a Go panic, an error return, or a
pool. -/
inductive ConnectOutcome where
  | panicked (msg : String)
  | failed (e : String)
  | ok (p : PoolRec)
deriving Repr, DecidableEq

/-- ConnectConfig (src/unnamed/part_000 lines 154-233).  The initial eager
connection (p.p.Acquire at line 224) goes through the external puddle pool and
the network; its outcome is a parameter.  A config not created by ParseConfig
panics before anything is built; when not LazyConnect, a failing initial
acquire closes the pool and returns the error. -/
def ConnectConfig (config : Config) (initialAcquire : Except String Unit) :
    ConnectOutcome :=
  if !config.createdByParseConfig then
    .panicked "config must be created by ParseConfig"
  else
    let p : PoolRec :=
      { minConns := config.minConns
        maxConnLifetime := config.maxConnLifetime
        maxConnIdleTime := config.maxConnIdleTime
        healthCheckPeriod := config.healthCheckPeriod }
    if !config.lazyConnect then
      match initialAcquire with
      | .error e => .failed e
      | .ok _ => .ok p
    else .ok p

/-! The acquisition retry loop (Pool.Acquire, src/unnamed/part_000 lines
373-387).  The core pool it drives is the external puddle primitive; its state
and its Acquire operation are modelled from the spec (section 4.1).
Connections are identified by numbers; newly constructed connections take
fresh identifiers from nextId. -/

/-- Modelled from the spec: the state of the puddle core pool visible to a
single caller of Acquire.  The factoryCalls and destroyCalls counters record
how often the constructor and destructor closures ran. -/
structure CoreState where
  cancelled : Bool
  idle : List Nat
  leased : Nat
  maxConns : Nat
  nextId : Nat
  factoryCalls : Nat
  destroyCalls : Nat
deriving Repr, DecidableEq

/-- Errors a core acquire can produce. -/
inductive AcqError where
  | cancelled
  | factoryFailed
  | saturated
deriving Repr, DecidableEq

/-- Modelled from the spec (section 4.1): puddle's acquire as seen by one
caller.  A cancelled token yields an error; an idle resource is popped in FIFO
order; below the cap the factory runs (factoryOk says whether its k-th
invocation succeeds; on failure no slot is consumed); at the cap the real pool
parks the caller until a release, which with no other caller in this model
never comes, so that state is represented by the saturated error. -/
def coreAcquire (factoryOk : Nat → Bool) (s : CoreState) :
    Except AcqError Nat × CoreState :=
  if s.cancelled then (.error .cancelled, s)
  else
    match s.idle with
    | c :: rest => (.ok c, { s with idle := rest, leased := s.leased + 1 })
    | [] =>
      if s.idle.length + s.leased < s.maxConns then
        if factoryOk s.factoryCalls then
          (.ok s.nextId,
           { s with leased := s.leased + 1, nextId := s.nextId + 1,
                    factoryCalls := s.factoryCalls + 1 })
        else (.error .factoryFailed, { s with factoryCalls := s.factoryCalls + 1 })
      else (.error .saturated, s)

/-- Modelled from the spec (section 4.1): puddle's Resource.Destroy for a
leased resource — it leaves accounting and its destructor runs. -/
def coreDestroy (s : CoreState) : CoreState :=
  { s with leased := s.leased - 1, destroyCalls := s.destroyCalls + 1 }

/-- The optional BeforeAcquire hook: nil allows every connection (line 381). -/
def hookAccepts : Option (Nat → Bool) → Nat → Bool
  | none, _ => true
  | some f, c => f c

/-- Pool.Acquire (lines 373-387): loop acquiring from the core; a core error
is returned unchanged; a connection the hook allows is returned; otherwise the
resource is destroyed and the loop retries.  The Go loop is unbounded, so it
is given fuel: none means the loop was still running after that many
iterations. -/
def Acquire (beforeAcquire : Option (Nat → Bool)) (factoryOk : Nat → Bool) :
    Nat → CoreState → Option (Except AcqError Nat × CoreState)
  | 0, _ => none
  | fuel + 1, s =>
    match coreAcquire factoryOk s with
    | (.error e, s') => some (.error e, s')
    | (.ok c, s') =>
      if hookAccepts beforeAcquire c then some (.ok c, s')
      else Acquire beforeAcquire factoryOk fuel (coreDestroy s')

/-! The health maintainer (backgroundHealthCheck, checkIdleConnsHealth and
checkMinConns, src/unnamed/part_000 lines 333-371).  One tick of the loop is
modelled as a function on a pool-state snapshot; timestamps are integer
nanoseconds on a common clock. -/

/-- An idle resource as the health scan sees it: puddle's CreationTime and the
start of its current idle period. -/
structure HRes where
  rid : Nat
  creationTime : Int
  idleSince : Int
deriving Repr, DecidableEq

/-- Pool-state snapshot for the health maintainer.  launched records the
cancellation timeout (in ns) of every replenishment task started so far, and
destroyed the identifiers of resources the scan destroyed. -/
structure HealthState where
  now : Int
  idle : List HRes
  leasedCount : Nat
  constructingCount : Nat
  maxConns : Nat
  minConns : Int
  maxConnLifetime : Int
  maxConnIdleTime : Int
  nextId : Nat
  launched : List Int
  destroyed : List Nat
deriving Repr, DecidableEq

/-- Modelled from the spec: puddle's Stat().TotalConns(), the count of
constructing, acquired and idle resources. -/
def totalConns (s : HealthState) : Int :=
  (s.constructingCount : Int) + (s.leasedCount : Int) + (s.idle.length : Int)

/-- What checkIdleConnsHealth decides for one idle resource. -/
inductive IdleDecision where
  | destroy
  | releaseUnused
deriving Repr, DecidableEq

/-- The per-resource checks of checkIdleConnsHealth (lines 352-360), in source
order: age above MaxConnLifetime destroys; otherwise idle time above
MaxConnIdleTime destroys; otherwise the resource is released unused. -/
def idleDecision (now lifetime idleTime : Int) (r : HRes) : IdleDecision :=
  if now - r.creationTime > lifetime then .destroy
  else if now - r.idleSince > idleTime then .destroy
  else .releaseUnused

/-- checkIdleConnsHealth (lines 348-361): AcquireAllIdle takes every idle
resource; each is destroyed or released unused according to idleDecision. -/
def checkIdleConnsHealth (s : HealthState) : HealthState :=
  { s with
    idle := s.idle.filter
      (fun r => idleDecision s.now s.maxConnLifetime s.maxConnIdleTime r
        == .releaseUnused)
    destroyed := s.destroyed ++
      (s.idle.filter
        (fun r => idleDecision s.now s.maxConnLifetime s.maxConnIdleTime r
          == .destroy)).map HRes.rid }

/-- Modelled from the spec: puddle's CreateResource grows the pool by one idle
resource, a no-op at the max_conns cap. -/
def createResource (s : HealthState) : HealthState :=
  if totalConns s < (s.maxConns : Int) then
    { s with idle := s.idle ++ [⟨s.nextId, s.now, s.now⟩],
             nextId := s.nextId + 1 }
  else s

/-- Run createResource n times (the n replenishment tasks of one tick). -/
def createN : Nat → HealthState → HealthState
  | 0, s => s
  | n + 1, s => createN n (createResource s)

/-- checkMinConns (lines 363-371): the loop counter starts at
MinConns - Stat().TotalConns() and counts down while positive, so exactly
max(0, deficit) creation tasks start, each under a one-minute context
timeout. -/
def checkMinConns (s : HealthState) : HealthState :=
  let deficit := (s.minConns - totalConns s).toNat
  createN deficit
    { s with launched := s.launched ++ List.replicate deficit minuteNs }

/-- One tick of backgroundHealthCheck (lines 341-344): the idle-health scan,
then minimum replenishment. -/
def healthTick (s : HealthState) : HealthState :=
  checkMinConns (checkIdleConnsHealth s)

/-! The long-lived lease façade (Pool.Query lines 423-436, Pool.SendBatch
lines 458-466, Pool.BeginTx lines 471-484).  Connections are identified by
numbers; the underlying connection operations are parameters.  Errors are
strings. -/

/-- What Pool.Query returns as its pgx.Rows: the errRows sentinel (defined
outside src/) or the poolRows wrapper holding the lease. -/
inductive RowsOut where
  | errRows (e : String)
  | poolRows (c : Nat)
deriving Repr, DecidableEq

/-- What Pool.BeginTx returns as its pgx.Tx: the nil interface or the Tx
wrapper holding the lease. -/
inductive TxOut where
  | nilTx
  | someTx (c : Nat)
deriving Repr, DecidableEq

/-- What Pool.SendBatch returns: the errBatchResults sentinel (defined outside
src/) or the poolBatchResults wrapper holding the lease. -/
inductive BatchOut where
  | errBatchResults (e : String)
  | poolBatchResults (c : Nat)
deriving Repr, DecidableEq

/-- Result of one façade call: the value and error returned, and the
connections whose leases were released during the call itself (a wrapper that
escapes holds its lease). -/
structure FacadeRet (α : Type) where
  val : α
  err : Option String
  releases : List Nat
deriving Repr, DecidableEq

/-- Pool.Query (lines 423-436): a failed acquire returns errRows with the
error; a failed initial Query releases the lease and returns errRows; success
wraps the rows and the lease in poolRows. -/
def poolQuery (acq : Except String Nat) (connQuery : Nat → Except String Unit) :
    FacadeRet RowsOut :=
  match acq with
  | .error e => ⟨.errRows e, some e, []⟩
  | .ok c =>
    match connQuery c with
    | .error e => ⟨.errRows e, some e, [c]⟩
    | .ok _ => ⟨.poolRows c, none, []⟩

/-- Pool.SendBatch (lines 458-466): a failed acquire returns errBatchResults;
otherwise c.SendBatch — which cannot fail, it returns the pipeline whose
errors surface later — is wrapped with the lease in poolBatchResults. -/
def poolSendBatch (acq : Except String Nat) : FacadeRet BatchOut :=
  match acq with
  | .error e => ⟨.errBatchResults e, none, []⟩
  | .ok c => ⟨.poolBatchResults c, none, []⟩

/-- Pool.BeginTx (lines 471-484): a failed acquire returns (nil, err); a
failed initial BeginTx releases the lease and returns (nil, err); success
wraps the transaction and the lease in Tx.  No sentinel transaction exists. -/
def poolBeginTx (acq : Except String Nat)
    (connBeginTx : Nat → Except String Unit) : FacadeRet TxOut :=
  match acq with
  | .error e => ⟨.nilTx, some e, []⟩
  | .ok c =>
    match connBeginTx c with
    | .error e => ⟨.nilTx, some e, [c]⟩
    | .ok _ => ⟨.someTx c, none, []⟩

/-- Methods of a pgx.Rows result, for stating what the sentinel returns. -/
inductive RowsMethod where
  | close
  | next
  | scan
  | values
  | commandTag
deriving Repr, DecidableEq

/-- Modelled from the spec: the errRows / errBatchResults sentinels (defined
outside src/) remember the error and yield it from every subsequent method
call. -/
def sentinelMethod (e : String) : RowsMethod → Except String Unit :=
  fun _ => .error e

end PgxPool

namespace Pgx

/-! convertDriverValuers (src/messages.go lines 8-26).  A Go interface value
is modelled by which of the interfaces relevant to the function it implements:
SensitiveData is a wrapper around an inner value; any other value carries
whether it implements pgtype.BinaryEncoder, whether it implements
pgtype.TextEncoder, and — if it implements driver.Valuer — what its Value
method returns (an error, or a replacement value). -/

/-- A Go argument value as convertDriverValuers distinguishes them. -/
inductive GoArg where
  | sens (inner : GoArg)
  | val (binary text : Bool) (valuer : Option (Except String GoArg))

/-- The one-level SensitiveData unwrap (lines 10-13): `arg = sens.Value`,
written back to the slice. -/
def unwrapSens : GoArg → GoArg
  | .sens inner => inner
  | a => a

/-- The type switch of lines 14-23: the pgtype.BinaryEncoder and
pgtype.TextEncoder cases do nothing, in that order, taking precedence over
driver.Valuer; a driver.Valuer is replaced by what its Value method returns
(callValuerValue is the Go stdlib call of arg.Value()); anything else is left
alone.  SensitiveData itself implements none of the three interfaces. -/
def switchResult : GoArg → Except String GoArg
  | .sens inner => .ok (.sens inner)
  | .val true text v => .ok (.val true text v)
  | .val false true v => .ok (.val false true v)
  | .val false false none => .ok (.val false false none)
  | .val false false (some r) => r

/-- Prepend the slice entry at the current index to the outcome of converting
the rest of the slice; an error carries the mutated slice the caller is left
holding. -/
def consResult (v : GoArg) :
    Except (String × List GoArg) (List GoArg) →
    Except (String × List GoArg) (List GoArg)
  | .error (e, m) => .error (e, v :: m)
  | .ok l => .ok (v :: l)

/-- convertDriverValuers (lines 8-26).  The Go function mutates args in place
and returns (args, nil) or (nil, err); here ok carries the returned slice and
error carries the error together with the slice as the in-place mutation left
it — replacements already made stay applied, the failing entry holds its
unwrapped value, later entries are untouched. -/
def convertDriverValuers : List GoArg → Except (String × List GoArg) (List GoArg)
  | [] => .ok []
  | a :: rest =>
    let a1 := unwrapSens a
    match switchResult a1 with
    | .error e => .error (e, a1 :: rest)
    | .ok v => consResult v (convertDriverValuers rest)

end Pgx

namespace PgxPool

/-! Helper lemmas about the runtime-params map and the per-key blocks of
ParseConfig. -/

theorem lookupParam_none_delete (k : String) (ps : Params)
    (h : lookupParam k ps = none) : deleteParam k ps = ps := by
  induction ps with
  | nil => rfl
  | cons kv rest ih =>
    simp only [lookupParam] at h
    by_cases hk : kv.1 = k
    · simp [hk] at h
    · simp only [if_neg hk] at h
      have hb : (kv.1 != k) = true := bne_iff_ne.mpr hk
      rw [show deleteParam k (kv :: rest) = kv :: deleteParam k rest from by
        simp [deleteParam, List.filter, hb]]
      rw [ih h]

theorem lookupParam_delete_ne (k key : String) (ps : Params) (h : k ≠ key) :
    lookupParam k (deleteParam key ps) = lookupParam k ps := by
  induction ps with
  | nil => rfl
  | cons kv rest ih =>
    by_cases hk : kv.1 = key
    · have hb : (kv.1 != key) = false := by simp [bne, hk]
      have hkk : ¬ kv.1 = k := by rw [hk]; exact fun hh => h hh.symm
      rw [show deleteParam key (kv :: rest) = deleteParam key rest from by
        simp [deleteParam, List.filter, hb]]
      rw [ih]
      simp [lookupParam, if_neg hkk]
    · have hb : (kv.1 != key) = true := bne_iff_ne.mpr hk
      rw [show deleteParam key (kv :: rest) = kv :: deleteParam key rest from by
        simp [deleteParam, List.filter, hb]]
      simp only [lookupParam, ih]

theorem lookupParam_delete_self (k : String) (ps : Params) :
    lookupParam k (deleteParam k ps) = none := by
  induction ps with
  | nil => rfl
  | cons kv rest ih =>
    by_cases hk : kv.1 = k
    · have hb : (kv.1 != k) = false := by simp [bne, hk]
      rw [show deleteParam k (kv :: rest) = deleteParam k rest from by
        simp [deleteParam, List.filter, hb]]
      exact ih
    · have hb : (kv.1 != k) = true := bne_iff_ne.mpr hk
      rw [show deleteParam k (kv :: rest) = kv :: deleteParam k rest from by
        simp [deleteParam, List.filter, hb]]
      simp [lookupParam, if_neg hk, ih]

theorem takeKey_ok_delete (key : String) (p : String → Option Int)
    (e : String) (params params' : Params) (v : Option Int)
    (h : takeKey key p e params = .ok (params', v)) :
    params' = deleteParam key params := by
  unfold takeKey at h
  split at h
  · split at h
    · cases h
    · cases h; rfl
  · cases h
    rename_i hl
    exact (lookupParam_none_delete key params hl).symm

theorem takeKey_absent (key : String) (p : String → Option Int) (e : String)
    (params : Params) (h : lookupParam key params = none) :
    takeKey key p e params = .ok (params, none) := by
  simp [takeKey, h]

theorem takeKey_ok_lookup (key : String) (p : String → Option Int)
    (e : String) (params params' : Params) (v : Option Int) (k : String)
    (h : takeKey key p e params = .ok (params', v)) (hk : k ≠ key) :
    lookupParam k params' = lookupParam k params := by
  rw [takeKey_ok_delete key p e params params' v h]
  exact lookupParam_delete_ne k key params hk

theorem ParseConfig_ok_inv (numCPU : Nat) (params : Params) (cfg : Config)
    (h : ParseConfig numCPU params = .ok cfg) :
    ∃ p1 maxOpt maxC p2 minOpt p3 lifeOpt p4 idleOpt p5 healthOpt,
      takeKey "pool_max_conns" parseGoInt32 "cannot parse pool_max_conns" params
        = .ok (p1, maxOpt) ∧
      checkMaxConns numCPU maxOpt = .ok maxC ∧
      takeKey "pool_min_conns" parseGoInt32 "cannot parse pool_min_conns" p1
        = .ok (p2, minOpt) ∧
      takeKey "pool_max_conn_lifetime" parseGoDuration "invalid pool_max_conn_lifetime" p2
        = .ok (p3, lifeOpt) ∧
      takeKey "pool_max_conn_idle_time" parseGoDuration "invalid pool_max_conn_idle_time" p3
        = .ok (p4, idleOpt) ∧
      takeKey "pool_health_check_period" parseGoDuration "invalid pool_health_check_period" p4
        = .ok (p5, healthOpt) ∧
      cfg = { runtimeParams := p5
              maxConns := maxC
              minConns := minOpt.getD 0
              maxConnLifetime := lifeOpt.getD hourNs
              maxConnIdleTime := idleOpt.getD thirtyMinNs
              healthCheckPeriod := healthOpt.getD minuteNs
              createdByParseConfig := true } := by
  unfold ParseConfig at h
  split at h
  · cases h
  rename_i p1 maxOpt h1
  split at h
  · cases h
  rename_i maxC h2
  split at h
  · cases h
  rename_i p2 minOpt h3
  split at h
  · cases h
  rename_i p3 lifeOpt h4
  split at h
  · cases h
  rename_i p4 idleOpt h5
  split at h
  · cases h
  rename_i p5 healthOpt h6
  cases h
  exact ⟨p1, maxOpt, maxC, p2, minOpt, p3, lifeOpt, p4, idleOpt, p5, healthOpt,
    h1, h2, h3, h4, h5, h6, rfl⟩

/-- C6 counterexample: the claim requires ParseConfig to reject
pool_min_conns values below 0, but pool_min_conns=-1 parses successfully and
the config records MinConns = -1. -/
theorem C6_counterexample :
    ParseConfig 4 [("pool_min_conns", "-1")] =
      .ok { runtimeParams := [], maxConns := 4, minConns := -1,
            maxConnLifetime := hourNs, maxConnIdleTime := thirtyMinNs,
            healthCheckPeriod := minuteNs, lazyConnect := false,
            createdByParseConfig := true } := by rfl

/-- C6 amended: ParseConfig rejects pool_max_conns values below 1, and for
every one of the five recognised pool keys it rejects values it cannot parse,
each with an error naming the offending key (the later keys are checked here
with the earlier keys absent, matching the sequential blocks of the code); it
enforces no other bounds — pool_min_conns may be negative or exceed
pool_max_conns, and each of the three durations may be non-positive. -/
theorem C6_bounds :
    (∀ (numCPU : Nat) (params : Params) (s : String) (n : Int),
      lookupParam "pool_max_conns" params = some s →
      parseGoInt32 s = some n → n < 1 →
      ParseConfig numCPU params =
        .error ("pool_max_conns too small: " ++ toString n)) ∧
    (∀ (numCPU : Nat) (params : Params) (s : String),
      lookupParam "pool_max_conns" params = some s →
      parseGoInt32 s = none →
      ParseConfig numCPU params = .error "cannot parse pool_max_conns") ∧
    (∀ (numCPU : Nat) (params : Params) (s : String),
      lookupParam "pool_max_conns" params = none →
      lookupParam "pool_min_conns" params = some s →
      parseGoInt32 s = none →
      ParseConfig numCPU params = .error "cannot parse pool_min_conns") ∧
    (∀ (numCPU : Nat) (params : Params) (s : String),
      lookupParam "pool_max_conns" params = none →
      lookupParam "pool_min_conns" params = none →
      lookupParam "pool_max_conn_lifetime" params = some s →
      parseGoDuration s = none →
      ParseConfig numCPU params = .error "invalid pool_max_conn_lifetime") ∧
    (∀ (numCPU : Nat) (params : Params) (s : String),
      lookupParam "pool_max_conns" params = none →
      lookupParam "pool_min_conns" params = none →
      lookupParam "pool_max_conn_lifetime" params = none →
      lookupParam "pool_max_conn_idle_time" params = some s →
      parseGoDuration s = none →
      ParseConfig numCPU params = .error "invalid pool_max_conn_idle_time") ∧
    (∀ (numCPU : Nat) (params : Params) (s : String),
      lookupParam "pool_max_conns" params = none →
      lookupParam "pool_min_conns" params = none →
      lookupParam "pool_max_conn_lifetime" params = none →
      lookupParam "pool_max_conn_idle_time" params = none →
      lookupParam "pool_health_check_period" params = some s →
      parseGoDuration s = none →
      ParseConfig numCPU params = .error "invalid pool_health_check_period") ∧
    ((ParseConfig 4 [("pool_min_conns", "-1")]).map (fun c => c.minConns) =
      .ok (-1)) ∧
    ((ParseConfig 4 [("pool_max_conns", "2"), ("pool_min_conns", "10")]).map
      (fun c => (c.maxConns, c.minConns)) = .ok (2, 10)) ∧
    ((ParseConfig 4 [("pool_max_conn_lifetime", "-1h")]).map
      (fun c => c.maxConnLifetime) = .ok (-hourNs)) ∧
    ((ParseConfig 4 [("pool_max_conn_idle_time", "-5m")]).map
      (fun c => c.maxConnIdleTime) = .ok (-(5 * minuteNs))) ∧
    ((ParseConfig 4 [("pool_health_check_period", "0s")]).map
      (fun c => c.healthCheckPeriod) = .ok 0) := by
  refine ⟨?_, ?_, ?_, ?_, ?_, ?_, by rfl, by rfl, by rfl, by rfl, by rfl⟩
  · intro numCPU params s n h1 h2 h3
    simp [ParseConfig, takeKey, h1, h2, checkMaxConns, if_pos h3]
  · intro numCPU params s h1 h2
    simp [ParseConfig, takeKey, h1, h2]
  · intro numCPU params s h1 h2 h3
    simp [ParseConfig, takeKey, checkMaxConns, h1, h2, h3]
  · intro numCPU params s h1 h2 h3 h4
    simp [ParseConfig, takeKey, checkMaxConns, h1, h2, h3, h4]
  · intro numCPU params s h1 h2 h3 h4 h5
    simp [ParseConfig, takeKey, checkMaxConns, h1, h2, h3, h4, h5]
  · intro numCPU params s h1 h2 h3 h4 h5 h6
    simp [ParseConfig, takeKey, checkMaxConns, h1, h2, h3, h4, h5, h6]

/-- C6 witness: pool_max_conns=0 is rejected with the error naming the key. -/
theorem C6_witness :
    ParseConfig 4 [("pool_max_conns", "0")] =
      .error ("pool_max_conns too small: " ++ toString (0 : Int)) :=
  C6_bounds.1 4 [("pool_max_conns", "0")] "0" 0 rfl rfl (by decide)

/-- C7: when a recognised pool key is absent from the connection string, the
parsed config carries the documented default for that field: max(4, numCPU)
connections at most, 0 at least, a one-hour lifetime, a thirty-minute idle
limit, and a one-minute health-check period. -/
theorem C7_defaults (numCPU : Nat) (params : Params) (cfg : Config)
    (h : ParseConfig numCPU params = .ok cfg) :
    (lookupParam "pool_max_conns" params = none →
      cfg.maxConns = max 4 (numCPU : Int)) ∧
    (lookupParam "pool_min_conns" params = none → cfg.minConns = 0) ∧
    (lookupParam "pool_max_conn_lifetime" params = none →
      cfg.maxConnLifetime = hourNs) ∧
    (lookupParam "pool_max_conn_idle_time" params = none →
      cfg.maxConnIdleTime = thirtyMinNs) ∧
    (lookupParam "pool_health_check_period" params = none →
      cfg.healthCheckPeriod = minuteNs) := by
  obtain ⟨p1, maxOpt, maxC, p2, minOpt, p3, lifeOpt, p4, idleOpt, p5, healthOpt,
    h1, h2, h3, h4, h5, h6, hcfg⟩ := ParseConfig_ok_inv numCPU params cfg h
  have l1 : ∀ k, k ≠ "pool_max_conns" → lookupParam k p1 = lookupParam k params :=
    fun k hk => takeKey_ok_lookup _ _ _ _ _ _ k h1 hk
  have l2 : ∀ k, k ≠ "pool_min_conns" → lookupParam k p2 = lookupParam k p1 :=
    fun k hk => takeKey_ok_lookup _ _ _ _ _ _ k h3 hk
  have l3 : ∀ k, k ≠ "pool_max_conn_lifetime" → lookupParam k p3 = lookupParam k p2 :=
    fun k hk => takeKey_ok_lookup _ _ _ _ _ _ k h4 hk
  have l4 : ∀ k, k ≠ "pool_max_conn_idle_time" → lookupParam k p4 = lookupParam k p3 :=
    fun k hk => takeKey_ok_lookup _ _ _ _ _ _ k h5 hk
  subst hcfg
  refine ⟨?_, ?_, ?_, ?_, ?_⟩
  · intro hl
    rw [takeKey_absent "pool_max_conns" parseGoInt32 "cannot parse pool_max_conns" params hl] at h1
    injection h1 with hpair
    injection hpair with hp hv
    subst hp; subst hv
    simp only [checkMaxConns] at h2
    injection h2 with hmax
    subst hmax
    show (if (numCPU : Int) > 4 then (numCPU : Int) else 4) = max 4 (numCPU : Int)
    split <;> omega
  · intro hl
    have hmin : lookupParam "pool_min_conns" p1 = none := by
      rw [l1 "pool_min_conns" (by decide)]; exact hl
    rw [takeKey_absent "pool_min_conns" parseGoInt32 "cannot parse pool_min_conns" p1 hmin] at h3
    injection h3 with hpair
    injection hpair with hp hv
    subst hv
    simp
  · intro hl
    have hlife : lookupParam "pool_max_conn_lifetime" p2 = none := by
      rw [l2 "pool_max_conn_lifetime" (by decide), l1 "pool_max_conn_lifetime" (by decide)]
      exact hl
    rw [takeKey_absent "pool_max_conn_lifetime" parseGoDuration "invalid pool_max_conn_lifetime" p2 hlife] at h4
    injection h4 with hpair
    injection hpair with hp hv
    subst hv
    simp
  · intro hl
    have hidle : lookupParam "pool_max_conn_idle_time" p3 = none := by
      rw [l3 "pool_max_conn_idle_time" (by decide), l2 "pool_max_conn_idle_time" (by decide),
        l1 "pool_max_conn_idle_time" (by decide)]
      exact hl
    rw [takeKey_absent "pool_max_conn_idle_time" parseGoDuration "invalid pool_max_conn_idle_time" p3 hidle] at h5
    injection h5 with hpair
    injection hpair with hp hv
    subst hv
    simp
  · intro hl
    have hhealth : lookupParam "pool_health_check_period" p4 = none := by
      rw [l4 "pool_health_check_period" (by decide), l3 "pool_health_check_period" (by decide),
        l2 "pool_health_check_period" (by decide), l1 "pool_health_check_period" (by decide)]
      exact hl
    rw [takeKey_absent "pool_health_check_period" parseGoDuration "invalid pool_health_check_period" p4 hhealth] at h6
    injection h6 with hpair
    injection hpair with hp hv
    subst hv
    simp

/-- C7 witness: the empty connection string yields every default. -/
theorem C7_witness :
    (ParseConfig 4 [] =
      .ok { runtimeParams := [], maxConns := 4, minConns := 0,
            maxConnLifetime := hourNs, maxConnIdleTime := thirtyMinNs,
            healthCheckPeriod := minuteNs, lazyConnect := false,
            createdByParseConfig := true }) ∧
    ({ runtimeParams := [], maxConns := 4, minConns := 0,
       maxConnLifetime := hourNs, maxConnIdleTime := thirtyMinNs,
       healthCheckPeriod := minuteNs, lazyConnect := false,
       createdByParseConfig := true } : Config).minConns = 0 :=
  ⟨rfl, (C7_defaults 4 [] _ rfl).2.1 rfl⟩

/-- C8: on success, every recognised pool key is gone from the residual
runtime-params map, and every unrecognised key still looks up to its original
value. -/
theorem C8_params_consumed (numCPU : Nat) (params : Params) (cfg : Config)
    (h : ParseConfig numCPU params = .ok cfg) :
    (∀ k, k ∈ poolKeys → lookupParam k cfg.runtimeParams = none) ∧
    (∀ k, k ∉ poolKeys →
      lookupParam k cfg.runtimeParams = lookupParam k params) := by
  obtain ⟨p1, maxOpt, maxC, p2, minOpt, p3, lifeOpt, p4, idleOpt, p5, healthOpt,
    h1, h2, h3, h4, h5, h6, hcfg⟩ := ParseConfig_ok_inv numCPU params cfg h
  have e1 : p1 = deleteParam "pool_max_conns" params :=
    takeKey_ok_delete _ _ _ _ _ _ h1
  have e2 : p2 = deleteParam "pool_min_conns" p1 :=
    takeKey_ok_delete _ _ _ _ _ _ h3
  have e3 : p3 = deleteParam "pool_max_conn_lifetime" p2 :=
    takeKey_ok_delete _ _ _ _ _ _ h4
  have e4 : p4 = deleteParam "pool_max_conn_idle_time" p3 :=
    takeKey_ok_delete _ _ _ _ _ _ h5
  have e5 : p5 = deleteParam "pool_health_check_period" p4 :=
    takeKey_ok_delete _ _ _ _ _ _ h6
  subst hcfg
  constructor
  · intro k hk
    show lookupParam k p5 = none
    simp only [poolKeys, List.mem_cons, List.not_mem_nil, or_false] at hk
    rcases hk with rfl | rfl | rfl | rfl | rfl
    · rw [e5, lookupParam_delete_ne _ _ _ (by decide), e4,
        lookupParam_delete_ne _ _ _ (by decide), e3,
        lookupParam_delete_ne _ _ _ (by decide), e2,
        lookupParam_delete_ne _ _ _ (by decide), e1, lookupParam_delete_self]
    · rw [e5, lookupParam_delete_ne _ _ _ (by decide), e4,
        lookupParam_delete_ne _ _ _ (by decide), e3,
        lookupParam_delete_ne _ _ _ (by decide), e2, lookupParam_delete_self]
    · rw [e5, lookupParam_delete_ne _ _ _ (by decide), e4,
        lookupParam_delete_ne _ _ _ (by decide), e3, lookupParam_delete_self]
    · rw [e5, lookupParam_delete_ne _ _ _ (by decide), e4, lookupParam_delete_self]
    · rw [e5, lookupParam_delete_self]
  · intro k hk
    show lookupParam k p5 = lookupParam k params
    simp only [poolKeys, List.mem_cons, List.not_mem_nil, or_false] at hk
    push_neg at hk
    obtain ⟨n1, n2, n3, n4, n5⟩ := hk
    rw [e5, lookupParam_delete_ne _ _ _ n5, e4, lookupParam_delete_ne _ _ _ n4,
      e3, lookupParam_delete_ne _ _ _ n3, e2, lookupParam_delete_ne _ _ _ n2,
      e1, lookupParam_delete_ne _ _ _ n1]

/-- C8 witness: with host present and pool_max_conns present, the parsed
residual map drops the pool key and keeps host at its original value. -/
theorem C8_witness :
    lookupParam "pool_max_conns"
      (({ runtimeParams := [("host", "h")], maxConns := 7, minConns := 0,
          maxConnLifetime := hourNs, maxConnIdleTime := thirtyMinNs,
          healthCheckPeriod := minuteNs, lazyConnect := false,
          createdByParseConfig := true } : Config).runtimeParams) = none ∧
    lookupParam "host"
      (({ runtimeParams := [("host", "h")], maxConns := 7, minConns := 0,
          maxConnLifetime := hourNs, maxConnIdleTime := thirtyMinNs,
          healthCheckPeriod := minuteNs, lazyConnect := false,
          createdByParseConfig := true } : Config).runtimeParams) =
      lookupParam "host" [("host", "h"), ("pool_max_conns", "7")] :=
  ⟨(C8_params_consumed 4 [("host", "h"), ("pool_max_conns", "7")] _ rfl).1
      "pool_max_conns" (by decide),
   (C8_params_consumed 4 [("host", "h"), ("pool_max_conns", "7")] _ rfl).2
      "host" (by decide)⟩

/-- C9: a config whose createdByParseConfig flag is unset makes ConnectConfig
panic with the fatal message "config must be created by ParseConfig", and no
pool is created. -/
theorem C9_connectConfig_rejects_unparsed (config : Config)
    (ia : Except String Unit) (h : config.createdByParseConfig = false) :
    ConnectConfig config ia = .panicked "config must be created by ParseConfig" ∧
    ∀ p, ConnectConfig config ia ≠ .ok p := by
  have hp : ConnectConfig config ia =
      .panicked "config must be created by ParseConfig" := by
    simp [ConnectConfig, h]
  exact ⟨hp, fun p hq => by rw [hp] at hq; cases hq⟩

/-- C9 witness: a hand-built config (flag left false) panics. -/
theorem C9_witness :
    ConnectConfig { runtimeParams := [] } (.ok ()) =
      .panicked "config must be created by ParseConfig" :=
  (C9_connectConfig_rejects_unparsed { runtimeParams := [] } (.ok ()) rfl).1

theorem Acquire_err (hook : Option (Nat → Bool)) (fo : Nat → Bool)
    (fuel : Nat) (s s' : CoreState) (e : AcqError)
    (h : coreAcquire fo s = (.error e, s')) :
    Acquire hook fo (fuel + 1) s = some (.error e, s') := by
  simp [Acquire, h]

theorem Acquire_ok_accept (hook : Option (Nat → Bool)) (fo : Nat → Bool)
    (fuel : Nat) (s s' : CoreState) (c : Nat)
    (h : coreAcquire fo s = (.ok c, s')) (hh : hookAccepts hook c = true) :
    Acquire hook fo (fuel + 1) s = some (.ok c, s') := by
  simp [Acquire, h, hh]

theorem Acquire_ok_reject (hook : Option (Nat → Bool)) (fo : Nat → Bool)
    (fuel : Nat) (s s' : CoreState) (c : Nat)
    (h : coreAcquire fo s = (.ok c, s')) (hh : hookAccepts hook c = false) :
    Acquire hook fo (fuel + 1) s = Acquire hook fo fuel (coreDestroy s') := by
  simp [Acquire, h, hh]

/-- C1: Pool.Acquire returns core-acquire errors to the caller unchanged; a
connection allowed by the BeforeAcquire hook (or any connection when the hook
is nil) is returned as the lease; a rejected connection is destroyed and the
loop retries; and on an empty pool whose hook rejects the first connection it
sees and accepts thereafter, the second factory-built connection is returned
after exactly two factory invocations and one destructor invocation. -/
theorem C1_acquire_retry :
    (∀ (hook : Option (Nat → Bool)) (fo : Nat → Bool) (fuel : Nat)
       (s s' : CoreState) (e : AcqError),
      coreAcquire fo s = (.error e, s') →
      Acquire hook fo (fuel + 1) s = some (.error e, s')) ∧
    (∀ (hook : Option (Nat → Bool)) (fo : Nat → Bool) (fuel : Nat)
       (s s' : CoreState) (c : Nat),
      coreAcquire fo s = (.ok c, s') → hookAccepts hook c = true →
      Acquire hook fo (fuel + 1) s = some (.ok c, s')) ∧
    (∀ (hook : Option (Nat → Bool)) (fo : Nat → Bool) (fuel : Nat)
       (s s' : CoreState) (c : Nat),
      coreAcquire fo s = (.ok c, s') → hookAccepts hook c = false →
      Acquire hook fo (fuel + 1) s = Acquire hook fo fuel (coreDestroy s')) ∧
    (Acquire (some (fun c => c != 0)) (fun _ => true) 2
        ⟨false, [], 0, 4, 0, 0, 0⟩ =
      some (.ok 1, ⟨false, [], 1, 4, 2, 2, 1⟩) ∧
     (⟨false, [], 1, 4, 2, 2, 1⟩ : CoreState).factoryCalls = 2 ∧
     (⟨false, [], 1, 4, 2, 2, 1⟩ : CoreState).destroyCalls = 1) := by
  refine ⟨?_, ?_, ?_, by rfl, by rfl, by rfl⟩
  · intro hook fo fuel s s' e h
    simp [Acquire, h]
  · intro hook fo fuel s s' c h hh
    simp [Acquire, h, hh]
  · intro hook fo fuel s s' c h hh
    simp [Acquire, h, hh]

/-- C1 witness: a cancelled token's error comes back unchanged through the
loop. -/
theorem C1_witness :
    Acquire none (fun _ => true) 1 ⟨true, [], 0, 1, 0, 0, 0⟩ =
      some (.error .cancelled, ⟨true, [], 0, 1, 0, 0, 0⟩) :=
  C1_acquire_retry.1 none (fun _ => true) 0 _ _ _ rfl

theorem Acquire_rejectAll_none (n : Nat) :
    ∀ s : CoreState, s.cancelled = false → s.idle = [] → s.leased = 0 →
      s.maxConns = 1 →
      Acquire (some (fun _ => false)) (fun _ => true) n s = none := by
  induction n with
  | zero => intro s _ _ _ _; rfl
  | succ n ih =>
    intro s h1 h2 h3 h4
    rcases s with ⟨c0, i0, l0, m0, nid, fc, dc⟩
    dsimp only at h1 h2 h3 h4
    subst h1; subst h2; subst h3; subst h4
    exact ih ⟨false, [], 0, 1, nid + 1, fc + 1, dc + 1⟩ rfl rfl rfl rfl

/-- C2 counterexample: with a BeforeAcquire hook that rejects every connection
(the factory always succeeding, the token never cancelled), Pool.Acquire
never terminates — no iteration bound makes the loop return. -/
theorem C2_counterexample :
    ¬ ∃ n : Nat, (Acquire (some (fun _ => false)) (fun _ => true) n
      ⟨false, [], 0, 1, 0, 0, 0⟩).isSome = true := by
  rintro ⟨n, hn⟩
  rw [Acquire_rejectAll_none n ⟨false, [], 0, 1, 0, 0, 0⟩ rfl rfl rfl rfl] at hn
  simp at hn

/-- C2 amended: the retry loop terminates whenever the BeforeAcquire hook
accepts every connection constructed during the call (every identifier from
nextId up): within idle-count + 1 iterations a connection is accepted or the
core error — cancellation, factory failure, exhaustion — is returned.  A hook
that also rejects new connections loops forever (see the counterexample). -/
theorem C2_acquire_terminates (hook : Option (Nat → Bool)) (fo : Nat → Bool)
    (s : CoreState) (h : ∀ c, s.nextId ≤ c → hookAccepts hook c = true) :
    (Acquire hook fo (s.idle.length + 1) s).isSome = true := by
  suffices H : ∀ (l : List Nat) (s : CoreState), s.idle = l →
      (∀ c, s.nextId ≤ c → hookAccepts hook c = true) →
      (Acquire hook fo (l.length + 1) s).isSome = true by
    exact H s.idle s rfl h
  intro l
  induction l with
  | nil =>
    intro s hs hh
    rcases s with ⟨cc, i0, l0, m0, nid, fc, dc⟩
    dsimp only at hs
    subst hs
    cases cc
    case true => simp [Acquire, coreAcquire]
    case false =>
      by_cases hlt : l0 < m0
      · by_cases hfo : fo fc = true
        · have ha := hh nid le_rfl
          simp [Acquire, coreAcquire, hlt, hfo, ha]
        · simp [Acquire, coreAcquire, hlt, hfo]
      · simp [Acquire, coreAcquire, hlt]
  | cons c0 rest ih =>
    intro s hs hh
    rcases s with ⟨cc, i0, l0, m0, nid, fc, dc⟩
    dsimp only at hs
    subst hs
    cases cc
    case true => simp [Acquire, coreAcquire]
    case false =>
      have hcore : coreAcquire fo ⟨false, c0 :: rest, l0, m0, nid, fc, dc⟩ =
          (.ok c0, ⟨false, rest, l0 + 1, m0, nid, fc, dc⟩) := rfl
      rw [show (c0 :: rest).length + 1 = (rest.length + 1) + 1 from by simp]
      by_cases hc : hookAccepts hook c0 = true
      · rw [Acquire_ok_accept hook fo (rest.length + 1) _ _ c0 hcore hc]
        rfl
      · have hb : hookAccepts hook c0 = false := by
          cases hx : hookAccepts hook c0
          · rfl
          · exact absurd hx hc
        rw [Acquire_ok_reject hook fo (rest.length + 1) _ _ c0 hcore hb]
        exact ih ⟨false, rest, l0 + 1 - 1, m0, nid, fc, dc + 1⟩ rfl hh

/-- C2 witness: with no hook configured the loop returns on the first
iteration of an empty pool. -/
theorem C2_witness :
    (Acquire none (fun _ => true) 1 ⟨false, [], 0, 4, 0, 0, 0⟩).isSome = true :=
  C2_acquire_terminates none (fun _ => true) ⟨false, [], 0, 4, 0, 0, 0⟩
    (fun _ _ => rfl)

theorem createResource_launched (s : HealthState) :
    (createResource s).launched = s.launched := by
  unfold createResource
  split <;> rfl

theorem createResource_maxConns (s : HealthState) :
    (createResource s).maxConns = s.maxConns := by
  unfold createResource
  split <;> rfl

theorem createN_launched (n : Nat) :
    ∀ s : HealthState, (createN n s).launched = s.launched := by
  induction n with
  | zero => intro s; rfl
  | succ n ih =>
    intro s
    simp only [createN]
    rw [ih, createResource_launched]

theorem createResource_total_le (s : HealthState)
    (h : totalConns s ≤ (s.maxConns : Int)) :
    totalConns (createResource s) ≤ (s.maxConns : Int) := by
  unfold createResource
  split
  · next hlt =>
    simp only [totalConns, List.length_append, List.length_cons,
      List.length_nil] at hlt ⊢
    push_cast
    omega
  · exact h

theorem createN_total_le (n : Nat) :
    ∀ s : HealthState, totalConns s ≤ (s.maxConns : Int) →
      totalConns (createN n s) ≤ (s.maxConns : Int) := by
  induction n with
  | zero => intro s h; exact h
  | succ n ih =>
    intro s h
    simp only [createN]
    have hc : totalConns (createResource s) ≤ ((createResource s).maxConns : Int) := by
      rw [createResource_maxConns]
      exact createResource_total_le s h
    have hn := ih (createResource s) hc
    rwa [createResource_maxConns] at hn

/-- C5: checkMinConns launches exactly max(0, MinConns − TotalConns) creation
tasks; every task it launches carries the one-minute (60 s) cancellation
timeout; and replenishment never pushes the total above MaxConns. -/
theorem C5_replenishment :
    (∀ s : HealthState, (checkMinConns s).launched =
      s.launched ++ List.replicate (s.minConns - totalConns s).toNat minuteNs) ∧
    (∀ s : HealthState, ∀ t ∈ (checkMinConns s).launched,
      t ∈ s.launched ∨ t = minuteNs) ∧
    (∀ s : HealthState, totalConns s ≤ (s.maxConns : Int) →
      totalConns (checkMinConns s) ≤ (s.maxConns : Int)) := by
  have hl : ∀ s : HealthState, (checkMinConns s).launched =
      s.launched ++ List.replicate (s.minConns - totalConns s).toNat minuteNs := by
    intro s
    unfold checkMinConns
    rw [createN_launched]
  refine ⟨hl, ?_, ?_⟩
  · intro s t ht
    rw [hl s] at ht
    rcases List.mem_append.mp ht with hmem | hmem
    · exact Or.inl hmem
    · exact Or.inr (List.eq_of_mem_replicate hmem)
  · intro s h
    unfold checkMinConns
    exact createN_total_le _ _ h

/-- C5 witness: a pool capped at one connection is not pushed past the cap
even with MinConns = 5. -/
theorem C5_witness :
    totalConns (checkMinConns ⟨0, [], 0, 0, 1, 5, 0, 0, 0, [], []⟩) ≤
      ((⟨0, [], 0, 0, 1, 5, 0, 0, 0, [], []⟩ : HealthState).maxConns : Int) :=
  C5_replenishment.2.2 ⟨0, [], 0, 0, 1, 5, 0, 0, 0, [], []⟩ (by decide)

/-- C4: in one health tick the per-resource checks run in source order — age
beyond MaxConnLifetime destroys regardless of idleness, then idle time beyond
MaxConnIdleTime destroys, otherwise the resource is released unused — and the
idle scan runs before minimum replenishment: on a state with two expired idle
resources, one fresh one and MinConns = 3, the tick ends at three live
resources, whereas replenishing before scanning would end at one. -/
theorem C4_idle_scan_order :
    (∀ (now lt it : Int) (r : HRes), now - r.creationTime > lt →
      idleDecision now lt it r = .destroy) ∧
    (∀ (now lt it : Int) (r : HRes), now - r.creationTime ≤ lt →
      now - r.idleSince > it → idleDecision now lt it r = .destroy) ∧
    (∀ (now lt it : Int) (r : HRes), now - r.creationTime ≤ lt →
      now - r.idleSince ≤ it → idleDecision now lt it r = .releaseUnused) ∧
    (∀ s : HealthState, healthTick s = checkMinConns (checkIdleConnsHealth s)) ∧
    (totalConns (healthTick
      ⟨100, [⟨1, 0, 90⟩, ⟨2, 10, 90⟩, ⟨3, 60, 90⟩], 0, 0, 10, 3, 50, 50, 7, [], []⟩) = 3 ∧
     totalConns (checkIdleConnsHealth (checkMinConns
      ⟨100, [⟨1, 0, 90⟩, ⟨2, 10, 90⟩, ⟨3, 60, 90⟩], 0, 0, 10, 3, 50, 50, 7, [], []⟩)) = 1) := by
  refine ⟨?_, ?_, ?_, fun s => rfl, by decide, by decide⟩
  · intro now lt it r h
    unfold idleDecision
    rw [if_pos h]
  · intro now lt it r h1 h2
    unfold idleDecision
    rw [if_neg (not_lt.mpr h1), if_pos h2]
  · intro now lt it r h1 h2
    unfold idleDecision
    rw [if_neg (not_lt.mpr h1), if_neg (not_lt.mpr h2)]

/-- C4 witness: a resource whose age exceeds the configured lifetime is
destroyed by the first check. -/
theorem C4_witness :
    idleDecision 100 50 50 ⟨1, 0, 90⟩ = .destroy :=
  C4_idle_scan_order.1 100 50 50 ⟨1, 0, 90⟩ (by decide)

/-- C3 counterexample: the claim promises an error-result sentinel from every
long-lived operation, but BeginTx on a failed acquire — and on a failed
initial BeginTx — returns the nil transaction together with the error, not a
sentinel object whose methods replay the error. -/
theorem C3_counterexample :
    poolBeginTx (.error "boom") (fun _ => .ok ()) =
      { val := TxOut.nilTx, err := some "boom", releases := [] } ∧
    poolBeginTx (.ok 3) (fun _ => .error "bad") =
      { val := TxOut.nilTx, err := some "bad", releases := [3] } :=
  ⟨rfl, rfl⟩

/-- C3 amended: Query returns the errRows sentinel on acquire failure, and on
initial-query failure after releasing the lease; SendBatch returns the
errBatchResults sentinel on acquire failure (its initial send has no failure
path); both sentinels yield their stored error from every subsequent method;
BeginTx releases the lease immediately on initial failure but returns the nil
transaction with the error instead of a sentinel. -/
theorem C3_error_results :
    (∀ (e : String) (cq : Nat → Except String Unit),
      poolQuery (.error e) cq = ⟨.errRows e, some e, []⟩) ∧
    (∀ (c : Nat) (e : String) (cq : Nat → Except String Unit),
      cq c = .error e → poolQuery (.ok c) cq = ⟨.errRows e, some e, [c]⟩) ∧
    (∀ e : String, poolSendBatch (.error e) = ⟨.errBatchResults e, none, []⟩) ∧
    (∀ (e : String) (m : RowsMethod), sentinelMethod e m = .error e) ∧
    (∀ (e : String) (cq : Nat → Except String Unit),
      poolBeginTx (.error e) cq = ⟨.nilTx, some e, []⟩) ∧
    (∀ (c : Nat) (e : String) (cq : Nat → Except String Unit),
      cq c = .error e → poolBeginTx (.ok c) cq = ⟨.nilTx, some e, [c]⟩) := by
  refine ⟨fun e cq => rfl, ?_, fun e => rfl, fun e m => rfl, fun e cq => rfl, ?_⟩
  · intro c e cq h
    simp [poolQuery, h]
  · intro c e cq h
    simp [poolBeginTx, h]

/-- C3 witness: a query whose initial run fails releases connection 5 and
hands back the sentinel carrying the same error. -/
theorem C3_witness :
    poolQuery (.ok 5) (fun _ => .error "x") = ⟨.errRows "x", some "x", [5]⟩ :=
  C3_error_results.2.1 5 "x" (fun _ => .error "x") rfl

end PgxPool

namespace Pgx

/-- C10: convertDriverValuers unwraps a SensitiveData argument and writes the
inner value back; pgtype.BinaryEncoder and pgtype.TextEncoder arguments are
left unchanged even when they are also driver.Valuer; a plain driver.Valuer
argument is replaced in the slice by its Value result; a failing Value call
aborts with that error while earlier replacements stay applied to the slice,
with the failing entry left at its (unwrapped) value and later entries
untouched — shown concretely on a three-argument slice. -/
theorem C10_convertDriverValuers :
    (∀ (t : Bool) (v : Option (Except String GoArg)) (rest : List GoArg),
      convertDriverValuers (.val true t v :: rest) =
        consResult (.val true t v) (convertDriverValuers rest)) ∧
    (∀ (v : Option (Except String GoArg)) (rest : List GoArg),
      convertDriverValuers (.val false true v :: rest) =
        consResult (.val false true v) (convertDriverValuers rest)) ∧
    (∀ (w : GoArg) (rest : List GoArg),
      convertDriverValuers (.val false false (some (.ok w)) :: rest) =
        consResult w (convertDriverValuers rest)) ∧
    (∀ (e : String) (rest : List GoArg),
      convertDriverValuers (.val false false (some (.error e)) :: rest) =
        .error (e, .val false false (some (.error e)) :: rest)) ∧
    (∀ (w : GoArg) (rest : List GoArg),
      convertDriverValuers (.sens (.val false false (some (.ok w))) :: rest) =
        consResult w (convertDriverValuers rest)) ∧
    (∀ rest : List GoArg,
      convertDriverValuers (.sens (.val false false none) :: rest) =
        consResult (.val false false none) (convertDriverValuers rest)) ∧
    (convertDriverValuers
        [.val false false (some (.ok (.val false false none))),
         .val false false (some (.error "bad")),
         .val true false none] =
      .error ("bad",
        [.val false false none,
         .val false false (some (.error "bad")),
         .val true false none])) :=
  ⟨fun _ _ _ => rfl, fun _ _ => rfl, fun _ _ => rfl, fun _ _ => rfl,
   fun _ _ => rfl, fun _ => rfl, rfl⟩

end Pgx
